import Mathlib

/-!
# TrendTracker API (`server.js`): data access and response shaping

A shallow embedding of `readProductsFromFile` and of the five route handlers
of `server.js` (`/api/health`, `/api/stats`, `/api/trending`,
`/api/trending/amazon`, `/api/trending/producthunt`), with the JavaScript
semantics the handlers rely on made explicit:

* the values `JSON.parse` can produce (`Json`); JavaScript's `undefined` is
  `none` in `Option Json`;
* truthiness (`!data`, `data ? … : …`), strict comparison with `null` and with
  a string literal, property reads (which throw on `null`), the conversion of
  a value to a property key, and reads and writes on the `platforms = {}`
  accumulator, which inherits from `Object.prototype`;
* exceptions, as the `Except Thrown` monad;
* the two conversions to a string that the engine decides and the source
  does not, `Array.prototype.join` on a sequence and `Number::toString` on a
  number outside the safe integers, as the fields of a `Runtime`: every
  statement about `/api/stats` holds for every `Runtime`.

Numbers are modelled as integers (JSON numerals without fraction or
exponent); below `2^53` in magnitude `+ 1` is exact and the conversion of a
number to a string is its decimal numeral.

A handler's result `.ok r` is the call `res.json(r.body)` with the status
`r.status`; what Express does with the body afterwards is not part of the
handlers.
-/

namespace TrendTracker

/-! ## Values -/

/-- A value produced by `JSON.parse`. A mapping keeps its fields in the order
of the text, duplicated names included. -/
inductive Json where
  | null
  | bool (b : Bool)
  | num (n : Int)
  | str (s : String)
  | arr (items : List Json)
  | obj (fields : List (String × Json))

/-- An exception that can be thrown while a request is served. -/
inductive Thrown where
  | ioError
  | syntaxError
  | typeError
  | rangeError

/-- JavaScript's `ToBoolean`: `null`, `false`, `0` and `""` are falsy, every
sequence and mapping is truthy. -/
def truthy : Json → Bool
  | .null => false
  | .bool b => b
  | .num n => n != 0
  | .str s => s != ""
  | .arr _ => true
  | .obj _ => true

/-- The test `v === null`. -/
def isNull : Json → Bool
  | .null => true
  | _ => false

/-- The own field `k` of a parsed mapping: `JSON.parse` keeps the last value
of a duplicated name. -/
def ownField : List (String × Json) → String → Option Json
  | [], _ => none
  | (k', v) :: rest, k =>
    match ownField rest k with
    | some w => some w
    | none => if k' = k then some v else none

/-- The read `v.k` on a value other than `null`, for a name `k` that no
built-in prototype defines (`count`, `products`, `lastUpdate`, `platform`):
the own field of a mapping, `undefined` on anything else. -/
def Json.get : Json → String → Option Json
  | .obj fields, k => ownField fields k
  | _, _ => none

/-- The read `v.k`: a `TypeError` on `null`. -/
def getProp (v : Json) (k : String) : Except Thrown (Option Json) :=
  if isNull v then .error .typeError else .ok (v.get k)

/-- The receiver of `x.forEach(…)` and `x.filter(…)`: only a sequence has
these methods; on `undefined` the read throws and on every other parsed value
the member is not a function, so the call throws. -/
def arrayReceiver : Option Json → Except Thrown (List Json)
  | some (.arr items) => .ok items
  | _ => .error .typeError

/-- The test `v === label` against a string literal: no coercion. -/
def strictEqStr (v : Option Json) (label : String) : Bool :=
  match v with
  | some (.str s) => s == label
  | _ => false

/-- Whether a parsed mapping has an own field named `k`. -/
def hasOwn (fields : List (String × Json)) (k : String) : Bool :=
  fields.any (fun kv => kv.1 == k)

/-- What the JavaScript engine decides in the conversion of a parsed value to
a string: the text of a number that is not a safe integer (from `10^21` on it
is in exponent form, and above `2^53` it is the shortest numeral that reads
back as the same double), and the result of `Array.prototype.join` on a
sequence, which for deeply nested sequences is a `RangeError` at a depth that
depends on the stack of the engine. -/
structure Runtime where
  largeNumberText : Int → String
  joinText : List Json → Except Thrown String

/-- JavaScript's `ToString` on a parsed value. A safe integer is its decimal
numeral; a sequence is joined by the engine; a mapping is `[object Object]`,
unless it has an own `toString` field, which is not callable: the conversion
then finds no method returning a primitive and throws a `TypeError`. -/
def toStr (rt : Runtime) : Json → Except Thrown String
  | .null => .ok "null"
  | .bool b => .ok (if b then "true" else "false")
  | .num n => .ok (if n.natAbs < 2 ^ 53 then toString n else rt.largeNumberText n)
  | .str s => .ok s
  | .arr items => rt.joinText items
  | .obj fields => if hasOwn fields "toString" then .error .typeError else .ok "[object Object]"

/-- The property key of `platforms[v]`: `ToPropertyKey`. -/
def toPropertyKey (rt : Runtime) : Option Json → Except Thrown String
  | none => .ok "undefined"
  | some v => toStr rt v

/-! ## The loader -/

/-- The state of `products.json` when a request is served: what
`fs.readFileSync` followed by `JSON.parse` does on it. -/
inductive Backing where
  | missing
  | unreadable
  | malformed
  | parses (root : Json)

/-- The body of the `try` block of `readProductsFromFile`: `fs.readFileSync`
throws on a missing or unreadable file, `JSON.parse` throws on a text that is
not JSON and returns the root value otherwise. -/
def readAndParse : Backing → Except Thrown Json
  | .missing => .error .ioError
  | .unreadable => .error .ioError
  | .malformed => .error .syntaxError
  | .parses root => .ok root

/-- The function `readProductsFromFile`: the parsed root as it is, or `null`
from the `catch` block. -/
def readProductsFromFile (d : Backing) : Except Thrown Json :=
  match readAndParse d with
  | .ok parsed => .ok parsed
  | .error _ => .ok .null

/-! ## Responses -/

/-- What a handler hands to Express: the status and the object literal given
to `res.json`. A field whose value is `undefined` (`none`) is left out by
`JSON.stringify`. -/
structure Response where
  status : Nat
  body : List (String × Option Json)

/-- The field `k` of the body that is sent: `none` when the literal has no
such field or its value is `undefined`. -/
def Response.field (r : Response) (k : String) : Option Json :=
  match r.body.find? (fun kv => kv.1 == k) with
  | some kv => kv.2
  | none => none

/-! ## The `platforms` accumulator of `/api/stats` -/

/-- A value stored in `platforms`: the handler only stores the result of
`(… || 0) + 1`, a number or a string. -/
inductive Slot where
  | count (n : Int)
  | text (s : String)

/-- The own properties of `platforms`, in the order of their creation. The
statements below read this object by key only, never by position. -/
abbrev Platforms := List (String × Slot)

/-- The text of `platforms[k]` when `k` is not an own property and
`Object.prototype` defines it: the source text of a built-in function as
Node.js prints it, and `[object Object]` for the prototype object that
`__proto__` yields. `none` for a name `Object.prototype` does not define. -/
def inheritedText (k : String) : Option String :=
  if k = "__proto__" then some "[object Object]"
  else if k = "constructor" then some "function Object() \x7b [native code] \x7d"
  else if k ∈ ["hasOwnProperty", "isPrototypeOf", "propertyIsEnumerable",
      "toLocaleString", "toString", "valueOf", "__defineGetter__",
      "__defineSetter__", "__lookupGetter__", "__lookupSetter__"] then
    some ("function " ++ k ++ "() \x7b [native code] \x7d")
  else none

/-- Whether `Object.prototype` defines the name `k`. -/
def inherited (k : String) : Bool := (inheritedText k).isSome

/-- The own property `k` of `platforms`. -/
def own : Platforms → String → Option Slot
  | [], _ => none
  | (k', v) :: rest, k => if k' = k then some v else own rest k

/-- The own property `k` created or overwritten in place. -/
def put : Platforms → String → Slot → Platforms
  | [], k, v => [(k, v)]
  | (k', v') :: rest, k, v => if k' = k then (k, v) :: rest else (k', v') :: put rest k v

/-- The assignment `platforms[k] = v` of a primitive `v`: the inherited
setter of `__proto__` ignores it, every other name becomes an own property. -/
def assign (ps : Platforms) (k : String) (v : Slot) : Platforms :=
  if k = "__proto__" then ps else put ps k v

/-- The value of `(platforms[k] || 0) + 1`. -/
def nextSlot (ps : Platforms) (k : String) : Slot :=
  match own ps k with
  | some (.count n) => .count ((if n != 0 then n else 0) + 1)
  | some (.text s) => if s != "" then .text (s ++ "1") else .count (0 + 1)
  | none =>
    match inheritedText k with
    | some t => .text (t ++ "1")
    | none => .count (0 + 1)

/-- The statement `platforms[k] = (platforms[k] || 0) + 1`. -/
def bump (ps : Platforms) (k : String) : Platforms :=
  assign ps k (nextSlot ps k)

/-- The key `product.platform` is converted to inside `platforms[…]`. -/
def platformKey (rt : Runtime) (product : Json) : Except Thrown String :=
  match getProp product "platform" with
  | .error e => .error e
  | .ok v => toPropertyKey rt v

/-- The loop `data.products.forEach(product => …)` of `/api/stats`. -/
def tally (rt : Runtime) : Platforms → List Json → Except Thrown Platforms
  | ps, [] => .ok ps
  | ps, product :: rest =>
    match platformKey rt product with
    | .error e => .error e
    | .ok k => tally rt (bump ps k) rest

/-- A stored value as it appears in the body. -/
def Slot.toJson : Slot → Json
  | .count n => .num n
  | .text s => .str s

/-- The fields of the `platforms` object as they appear in the body. -/
def slotFields (ps : Platforms) : List (String × Json) :=
  ps.map (fun kv => (kv.1, kv.2.toJson))

/-- The `platforms` object as it appears in the body. -/
def platformsJson (ps : Platforms) : Json :=
  .obj (slotFields ps)

/-! ## The handlers -/

/-- The callback `p => p.platform === label` of the two filters. -/
def platformIs (label : String) (p : Json) : Except Thrown Bool :=
  match getProp p "platform" with
  | .error e => .error e
  | .ok v => .ok (strictEqStr v label)

/-- The method `Array.prototype.filter` with a callback that may throw. -/
def filterE (f : Json → Except Thrown Bool) : List Json → Except Thrown (List Json)
  | [] => .ok []
  | x :: rest =>
    match f x with
    | .error e => .error e
    | .ok b =>
      match filterE f rest with
      | .error e => .error e
      | .ok kept => .ok (if b then x :: kept else kept)

/-- The handler of `GET /api/health`; `now` is `new Date().toISOString()`. -/
def getHealth (now : String) (d : Backing) : Except Thrown Response := do
  let data ← readProductsFromFile d
  let productCount ← if truthy data then getProp data "count" else pure (some (.num 0))
  pure (Response.mk 200
    [("status", some (.str "healthy")),
     ("timestamp", some (.str now)),
     ("dataAvailable", some (.bool (!isNull data))),
     ("productCount", productCount)])

/-- The handler of `GET /api/stats`. -/
def getStats (rt : Runtime) (d : Backing) : Except Thrown Response := do
  let data ← readProductsFromFile d
  if !truthy data then
    pure (Response.mk 404
      [("success", some (.bool false)),
       ("error", some (.str "No data available. Run: python scraper.py"))])
  else do
    let products ← getProp data "products"
    let items ← arrayReceiver products
    let platforms ← tally rt [] items
    let count ← getProp data "count"
    let lastUpdate ← getProp data "lastUpdate"
    pure (Response.mk 200
      [("success", some (.bool true)),
       ("totalProducts", count),
       ("platforms", some (platformsJson platforms)),
       ("lastUpdate", lastUpdate)])

/-- The handler of `GET /api/trending`. -/
def getAll (d : Backing) : Except Thrown Response := do
  let data ← readProductsFromFile d
  if !truthy data then
    pure (Response.mk 404
      [("success", some (.bool false)),
       ("error", some (.str "No data available")),
       ("message", some (.str "Please run: python scraper.py first"))])
  else do
    let count ← getProp data "count"
    let products ← getProp data "products"
    let lastUpdate ← getProp data "lastUpdate"
    pure (Response.mk 200
      [("success", some (.bool true)),
       ("count", count),
       ("products", products),
       ("lastUpdate", lastUpdate)])

/-- The common body of the handlers of `GET /api/trending/amazon` and
`GET /api/trending/producthunt`, which differ in the label only. -/
def getByPlatform (label : String) (d : Backing) : Except Thrown Response := do
  let data ← readProductsFromFile d
  if !truthy data then
    pure (Response.mk 404
      [("success", some (.bool false)),
       ("error", some (.str "No data available"))])
  else do
    let products ← getProp data "products"
    let items ← arrayReceiver products
    let kept ← filterE (platformIs label) items
    let lastUpdate ← getProp data "lastUpdate"
    pure (Response.mk 200
      [("success", some (.bool true)),
       ("count", some (.num kept.length)),
       ("products", some (.arr kept)),
       ("lastUpdate", lastUpdate)])

/-- The handler of `GET /api/trending/amazon`. -/
def getAmazon (d : Backing) : Except Thrown Response :=
  getByPlatform "Amazon" d

/-- The handler of `GET /api/trending/producthunt`. -/
def getProductHunt (d : Backing) : Except Thrown Response :=
  getByPlatform "Product Hunt" d


/-! ## Vocabulary of the statements -/

/-- An element of `products` other than `null` whose `platform` is a string
or is missing. -/
def plainProduct (x : Json) : Bool :=
  !isNull x &&
    match x.get "platform" with
    | none => true
    | some (.str _) => true
    | some _ => false

/-- The label `/api/stats` counts a product under: its `platform` string, and
`undefined` when the field is missing. -/
def labelOf (product : Json) : String :=
  match product.get "platform" with
  | some (.str s) => s
  | _ => "undefined"

/-- The sum of the values of a mapping whose values are all numbers; `none`
when some value is not a number. -/
def sumValues : List (String × Json) → Option Int
  | [] => some 0
  | (_, .num n) :: rest =>
    match sumValues rest with
    | some t => some (n + t)
    | none => none
  | _ :: _ => none

/-- A `platform` whose conversion to a property key does not depend on the
engine and cannot throw: a missing one, a primitive, or a mapping without an
own `toString` field; not a sequence. -/
def keyable : Option Json → Bool
  | none => true
  | some (.arr _) => false
  | some (.obj fields) => !hasOwn fields "toString"
  | some _ => true

/-- A mapping. -/
def isObj : Json → Bool
  | .obj _ => true
  | _ => false

/-- A number. -/
def isNum : Option Json → Bool
  | some (.num _) => true
  | _ => false

/-- A string. -/
def isStr : Option Json → Bool
  | some (.str _) => true
  | _ => false

/-- No own property of `ps` holds a string. -/
def numbersOnly (ps : Platforms) : Prop := ∀ k s, own ps k ≠ some (.text s)

/-- The names of the fields of the body that is sent: the names of the object
literal given to `res.json` whose value is not `undefined`. -/
def Response.keys (r : Response) : List String :=
  r.body.filterMap (fun kv => match kv.2 with | some _ => some kv.1 | none => none)

/-! ## Sample documents -/

/-- The document of Scenario A: one Amazon and one Product Hunt product. -/
def scenarioA : Json :=
  .obj [("count", .num 2), ("lastUpdate", .str "T"),
    ("products", .arr [.obj [("platform", .str "Amazon"), ("name", .str "X")],
      .obj [("platform", .str "Product Hunt"), ("name", .str "Y")]])]

/-- The text `{"count":1,"lastUpdate":"T","products":[null]}`. -/
def docNullElement : Json :=
  .obj [("count", .num 1), ("lastUpdate", .str "T"), ("products", .arr [.null])]

/-- The text `{"count":2,"lastUpdate":"T","products":[{"platform":"Product Hunt","name":"Y"},null]}`. -/
def docNullSecond : Json :=
  .obj [("count", .num 2), ("lastUpdate", .str "T"),
    ("products", .arr [.obj [("platform", .str "Product Hunt"), ("name", .str "Y")], .null])]

/-- The text `{"count":3,"lastUpdate":"T","products":[{"platform":"Amazon","name":"X"}]}`:
the stored count differs from the number of products. -/
def docStoredCount : Json :=
  .obj [("count", .num 3), ("lastUpdate", .str "T"),
    ("products", .arr [.obj [("platform", .str "Amazon"), ("name", .str "X")]])]

/-- The text `{"count":5,"lastUpdate":"T","products":[]}`. -/
def docEmptyProducts : Json :=
  .obj [("count", .num 5), ("lastUpdate", .str "T"), ("products", .arr [])]

/-- The text `{"count":1,"lastUpdate":"T","products":[{"name":"X"}]}`: a product
with no `platform` field. -/
def docNoPlatform : Json :=
  .obj [("count", .num 1), ("lastUpdate", .str "T"),
    ("products", .arr [.obj [("name", .str "X")]])]

/-- The text `{"count":1,"lastUpdate":"T","products":[{"platform":{"toString":1}}]}`:
a product whose `platform` is a mapping with an own `toString` field. -/
def docToStringPlatform : Json :=
  .obj [("count", .num 1), ("lastUpdate", .str "T"),
    ("products", .arr [.obj [("platform", .obj [("toString", .num 1)])]])]

/-- The text `{"count":"many"}`: no `products` field, and a `count` that is
not a number. -/
def docNoProducts : Json :=
  .obj [("count", .str "many")]

/-! ## Lemmas on the loader and on property reads -/

theorem readProductsFromFile_eq (d : Backing) :
    readProductsFromFile d = .ok (match d with | .parses root => root | _ => .null) := by
  cases d <;> rfl

theorem truthy_of_get {root : Json} {k : String} {v : Json} (h : root.get k = some v) :
    truthy root = true := by
  cases root <;> first | rfl | simp [Json.get] at h

theorem isNull_of_truthy {root : Json} (h : truthy root = true) : isNull root = false := by
  cases root <;> first | rfl | simp [truthy] at h

theorem getProp_of_truthy {root : Json} (h : truthy root = true) (k : String) :
    getProp root k = .ok (root.get k) := by
  simp [getProp, isNull_of_truthy h]

/-! ## Lemmas on the filter -/

theorem filterE_platformIs (label : String) (xs : List Json)
    (h : ∀ x ∈ xs, isNull x = false) :
    filterE (platformIs label) xs
      = .ok (xs.filter (fun p => strictEqStr (p.get "platform") label)) := by
  induction xs with
  | nil => rfl
  | cons x rest ih =>
    have hx : isNull x = false := h x (List.mem_cons_self _ _)
    have hr := ih (fun y hy => h y (List.mem_cons_of_mem _ hy))
    cases hb : strictEqStr (x.get "platform") label <;>
      simp [filterE, platformIs, getProp, hx, hr, List.filter_cons, hb]

theorem filterE_platformIs_null (label : String) (xs : List Json)
    (h : ∃ x ∈ xs, isNull x = true) :
    filterE (platformIs label) xs = .error .typeError := by
  induction xs with
  | nil => obtain ⟨x, hx, _⟩ := h; cases hx
  | cons x rest ih =>
    cases hx : isNull x with
    | true => simp [filterE, platformIs, getProp, hx]
    | false =>
      have : ∃ y ∈ rest, isNull y = true := by
        obtain ⟨y, hy, hn⟩ := h
        rcases List.mem_cons.mp hy with rfl | hy
        · rw [hx] at hn; cases hn
        · exact ⟨y, hy, hn⟩
      simp [filterE, platformIs, getProp, hx, ih this]

theorem getByPlatform_of_items (label : String) (d : Backing) (root : Json) (xs : List Json)
    (hload : readProductsFromFile d = .ok root)
    (hp : root.get "products" = some (.arr xs))
    (hx : ∀ x ∈ xs, isNull x = false) :
    getByPlatform label d = .ok (Response.mk 200
      [("success", some (.bool true)),
       ("count", some (.num (xs.filter (fun p => strictEqStr (p.get "platform") label)).length)),
       ("products", some (.arr (xs.filter (fun p => strictEqStr (p.get "platform") label)))),
       ("lastUpdate", root.get "lastUpdate")]) := by
  have ht := truthy_of_get hp
  simp [getByPlatform, hload, ht, getProp_of_truthy ht, hp, arrayReceiver,
    filterE_platformIs label xs hx, bind, Except.bind, pure, Except.pure]

theorem getAll_of_truthy (d : Backing) (root : Json)
    (hload : readProductsFromFile d = .ok root) (ht : truthy root = true) :
    getAll d = .ok (Response.mk 200
      [("success", some (.bool true)),
       ("count", root.get "count"),
       ("products", root.get "products"),
       ("lastUpdate", root.get "lastUpdate")]) := by
  simp [getAll, hload, ht, getProp_of_truthy ht, bind, Except.bind, pure, Except.pure]

theorem getAll_of_falsy (d : Backing) (root : Json)
    (hload : readProductsFromFile d = .ok root) (ht : truthy root = false) :
    getAll d = .ok (Response.mk 404
      [("success", some (.bool false)),
       ("error", some (.str "No data available")),
       ("message", some (.str "Please run: python scraper.py first"))]) := by
  simp [getAll, hload, ht, bind, Except.bind, pure, Except.pure]

theorem getByPlatform_of_falsy (label : String) (d : Backing) (root : Json)
    (hload : readProductsFromFile d = .ok root) (ht : truthy root = false) :
    getByPlatform label d = .ok (Response.mk 404
      [("success", some (.bool false)),
       ("error", some (.str "No data available"))]) := by
  simp [getByPlatform, hload, ht, bind, Except.bind, pure, Except.pure]

theorem getStats_of_falsy (rt : Runtime) (d : Backing) (root : Json)
    (hload : readProductsFromFile d = .ok root) (ht : truthy root = false) :
    getStats rt d = .ok (Response.mk 404
      [("success", some (.bool false)),
       ("error", some (.str "No data available. Run: python scraper.py"))]) := by
  simp [getStats, hload, ht, bind, Except.bind, pure, Except.pure]

theorem getHealth_eq (now : String) (d : Backing) (root : Json)
    (hload : readProductsFromFile d = .ok root) :
    getHealth now d = .ok (Response.mk 200
      [("status", some (.str "healthy")),
       ("timestamp", some (.str now)),
       ("dataAvailable", some (.bool (!isNull root))),
       ("productCount", if truthy root then root.get "count" else some (.num 0))]) := by
  cases ht : truthy root <;>
    simp [getHealth, hload, ht, getProp_of_truthy, bind, Except.bind, pure, Except.pure]


/-! ## Lemmas on the conversion to a property key -/

theorem platformKey_of_plain (rt : Runtime) (x : Json) (h : plainProduct x = true) :
    platformKey rt x = .ok (labelOf x) := by
  simp only [plainProduct, Bool.and_eq_true, Bool.not_eq_true'] at h
  obtain ⟨hn, hpl⟩ := h
  simp only [platformKey, getProp, hn, labelOf]
  cases hf : x.get "platform" with
  | none => simp [toPropertyKey]
  | some v =>
    rw [hf] at hpl
    cases v <;> simp at hpl
    simp [toPropertyKey, toStr]

theorem toPropertyKey_of_keyable (rt : Runtime) (v : Option Json) (h : keyable v = true) :
    ∃ k, toPropertyKey rt v = .ok k := by
  cases v with
  | none => exact ⟨"undefined", rfl⟩
  | some j =>
    cases j with
    | null => exact ⟨_, rfl⟩
    | bool b => exact ⟨_, rfl⟩
    | num n => exact ⟨_, rfl⟩
    | str t => exact ⟨_, rfl⟩
    | arr items => simp [keyable] at h
    | obj fields =>
      simp only [keyable, Bool.not_eq_true'] at h
      exact ⟨"[object Object]", by simp [toPropertyKey, toStr, h]⟩

theorem platformKey_of_keyable (rt : Runtime) (x : Json) (ho : isObj x = true)
    (h : keyable (x.get "platform") = true) :
    ∃ k, platformKey rt x = .ok k := by
  have hn : isNull x = false := by
    cases x <;> first | rfl | simp [isObj] at ho
  obtain ⟨k, hk⟩ := toPropertyKey_of_keyable rt (x.get "platform") h
  exact ⟨k, by simp [platformKey, getProp, hn, hk]⟩

/-! ## Lemmas on the accumulator -/

theorem tally_of_keys (rt : Runtime) (key : Json → String) (xs : List Json) :
    ∀ ps : Platforms, (∀ x ∈ xs, platformKey rt x = .ok (key x)) →
      tally rt ps xs = .ok ((xs.map key).foldl bump ps) := by
  induction xs with
  | nil => intro ps _; rfl
  | cons x rest ih =>
    intro ps h
    have hx := h x (List.mem_cons_self _ _)
    simp only [tally, hx, List.map_cons, List.foldl_cons]
    exact ih _ (fun y hy => h y (List.mem_cons_of_mem _ hy))

theorem tally_ok (rt : Runtime) (xs : List Json) :
    ∀ ps : Platforms, (∀ x ∈ xs, ∃ k, platformKey rt x = .ok k) →
      ∃ qs, tally rt ps xs = .ok qs := by
  induction xs with
  | nil => intro ps _; exact ⟨ps, rfl⟩
  | cons x rest ih =>
    intro ps h
    obtain ⟨k, hk⟩ := h x (List.mem_cons_self _ _)
    simp only [tally, hk]
    exact ih _ (fun y hy => h y (List.mem_cons_of_mem _ hy))

theorem inherited_proto_ne {k : String} (h : inherited k = false) : k ≠ "__proto__" := by
  rintro rfl
  revert h
  decide

theorem inheritedText_of_not_inherited {k : String} (h : inherited k = false) :
    inheritedText k = none := by
  simpa [inherited] using h

theorem own_put_self (ps : Platforms) (k : String) (v : Slot) : own (put ps k v) k = some v := by
  induction ps with
  | nil => simp [put, own]
  | cons kv rest ih =>
    obtain ⟨k', v'⟩ := kv
    by_cases hk : k' = k <;> simp [put, own, hk, ih]

theorem own_put_ne (ps : Platforms) (k k' : String) (v : Slot) (hne : k' ≠ k) :
    own (put ps k' v) k = own ps k := by
  induction ps with
  | nil => simp [put, own, hne]
  | cons kv rest ih =>
    obtain ⟨k'', v'⟩ := kv
    by_cases hk : k'' = k'
    · subst hk; simp [put, own, hne]
    · by_cases hk2 : k'' = k
      · subst hk2; simp [put, own, hk]
      · simp [put, own, hk, hk2, ih]

theorem own_bump_ne (ps : Platforms) (k k' : String) (hne : k' ≠ k) :
    own (bump ps k') k = own ps k := by
  unfold bump assign
  split
  · rfl
  · exact own_put_ne ps k k' _ hne

theorem own_bump_self (ps : Platforms) (k : String) (h : inherited k = false) :
    own (bump ps k) k = some (nextSlot ps k) := by
  unfold bump assign
  rw [if_neg (inherited_proto_ne h)]
  exact own_put_self ps k _

theorem nextSlot_count (ps : Platforms) (k : String) (n : Int)
    (h : own ps k = some (.count n)) : nextSlot ps k = .count (n + 1) := by
  unfold nextSlot
  rw [h]
  by_cases hn : n = 0 <;> simp [hn]

theorem nextSlot_fresh (ps : Platforms) (k : String) (hi : inherited k = false)
    (h : own ps k = none) : nextSlot ps k = .count 1 := by
  unfold nextSlot
  rw [h, inheritedText_of_not_inherited hi]
  rfl

theorem own_foldl_bump (k : String) (hi : inherited k = false) (ks : List String) :
    ∀ ps : Platforms,
      (own ps k = none → own (ks.foldl bump ps) k
          = if ks.count k = 0 then none else some (.count (ks.count k))) ∧
      (∀ n : Int, own ps k = some (.count n) →
          own (ks.foldl bump ps) k = some (.count (n + ks.count k))) := by
  induction ks with
  | nil => intro ps; constructor <;> intros <;> simp_all
  | cons k' rest ih =>
    intro ps
    by_cases hk : k' = k
    · subst hk
      constructor
      · intro h0
        have h1 : own (bump ps k') k' = some (.count 1) := by
          rw [own_bump_self ps k' hi, nextSlot_fresh ps k' hi h0]
        have := (ih (bump ps k')).2 1 h1
        simp only [List.foldl_cons, this, List.count_cons_self]
        simp [add_comm]
      · intro n hn
        have h1 : own (bump ps k') k' = some (.count (n + 1)) := by
          rw [own_bump_self ps k' hi, nextSlot_count ps k' n hn]
        have := (ih (bump ps k')).2 (n + 1) h1
        simp only [List.foldl_cons, this, List.count_cons_self]
        congr 2
        push_cast
        ring
    · have hb : own (bump ps k') k = own ps k := own_bump_ne ps k k' hk
      have hc : (k' :: rest).count k = rest.count k := by
        simp [List.count_cons, hk]
      constructor
      · intro h0
        rw [List.foldl_cons, hc]
        exact (ih (bump ps k')).1 (hb.trans h0)
      · intro n hn
        rw [List.foldl_cons, hc]
        exact (ih (bump ps k')).2 n (hb.trans hn)

theorem bump_eq_put (ps : Platforms) (k : String) (h : inherited k = false) :
    bump ps k = put ps k (nextSlot ps k) := by
  unfold bump assign
  rw [if_neg (inherited_proto_ne h)]

theorem keys_put (ps : Platforms) (k : String) (v : Slot) :
    (put ps k v).map Prod.fst
      = if k ∈ ps.map Prod.fst then ps.map Prod.fst else ps.map Prod.fst ++ [k] := by
  induction ps with
  | nil => simp [put]
  | cons kv rest ih =>
    obtain ⟨k', v'⟩ := kv
    by_cases hk : k' = k
    · subst hk; simp [put]
    · have hk' : ¬ k = k' := fun h => hk h.symm
      by_cases hm : k ∈ rest.map Prod.fst
      · simp only [put, hk, if_false, List.map_cons, ih, hm, if_true, List.mem_cons, or_true]
      · simp only [put, hk, if_false, List.map_cons, ih, hm, List.mem_cons, hk', or_self,
          List.cons_append]

theorem nodup_put (ps : Platforms) (k : String) (v : Slot)
    (h : (ps.map Prod.fst).Nodup) : ((put ps k v).map Prod.fst).Nodup := by
  rw [keys_put]
  split
  · exact h
  · rename_i hm
    exact List.Nodup.append h (List.nodup_singleton k) (by simpa using hm)

theorem nodup_bump (ps : Platforms) (k : String)
    (h : (ps.map Prod.fst).Nodup) : ((bump ps k).map Prod.fst).Nodup := by
  unfold bump assign
  split
  · exact h
  · exact nodup_put ps k _ h

theorem nodup_foldl_bump (ks : List String) :
    ∀ ps : Platforms, (ps.map Prod.fst).Nodup → ((ks.foldl bump ps).map Prod.fst).Nodup := by
  induction ks with
  | nil => intro ps h; exact h
  | cons k rest ih => intro ps h; exact ih _ (nodup_bump ps k h)

theorem slotFields_cons_count (k : String) (n : Int) (rest : Platforms) :
    slotFields ((k, .count n) :: rest) = (k, .num n) :: slotFields rest := rfl

theorem slotFields_cons_text (k : String) (t : String) (rest : Platforms) :
    slotFields ((k, .text t) :: rest) = (k, .str t) :: slotFields rest := rfl

theorem slotFields_cons (k : String) (v : Slot) (rest : Platforms) :
    slotFields ((k, v) :: rest) = (k, v.toJson) :: slotFields rest := rfl

theorem sumValues_cons_num (k : String) (n : Int) (rest : List (String × Json)) :
    sumValues ((k, .num n) :: rest) = (sumValues rest).map (n + ·) := by
  simp only [sumValues]
  cases sumValues rest <;> rfl

theorem sumValues_cons_str (k : String) (t : String) (rest : List (String × Json)) :
    sumValues ((k, .str t) :: rest) = none := rfl

theorem ownField_cons (k' : String) (v : Json) (rest : List (String × Json)) (k : String) :
    ownField ((k', v) :: rest) k
      = match ownField rest k with
        | some w => some w
        | none => if k' = k then some v else none := rfl

theorem ownField_none_of_not_mem (ps : Platforms) (k : String)
    (h : k ∉ ps.map Prod.fst) :
    ownField (slotFields ps) k = none := by
  induction ps with
  | nil => rfl
  | cons kv rest ih =>
    obtain ⟨k', v'⟩ := kv
    simp only [List.map_cons, List.mem_cons, not_or] at h
    have hk : ¬ k' = k := fun e => h.1 e.symm
    rw [slotFields_cons, ownField_cons, ih h.2]
    simp [hk]

theorem ownField_platforms (ps : Platforms) (k : String) (h : (ps.map Prod.fst).Nodup) :
    ownField (slotFields ps) k = (own ps k).map Slot.toJson := by
  induction ps with
  | nil => rfl
  | cons kv rest ih =>
    obtain ⟨k', v'⟩ := kv
    simp only [List.map_cons, List.nodup_cons] at h
    by_cases hk : k' = k
    · subst hk
      rw [slotFields_cons, ownField_cons, ownField_none_of_not_mem rest k' h.1]
      simp [own]
    · rw [slotFields_cons, ownField_cons, ih h.2]
      simp only [own, hk, if_false]
      cases own rest k <;> simp

theorem numbersOnly_bump (ps : Platforms) (k : String) (hi : inherited k = false)
    (h : numbersOnly ps) : numbersOnly (bump ps k) := by
  intro k' s
  by_cases hk : k = k'
  · subst hk
    rw [own_bump_self ps k hi]
    cases ho : own ps k with
    | none => rw [nextSlot_fresh ps k hi ho]; simp
    | some v =>
      cases v with
      | count n => rw [nextSlot_count ps k n ho]; simp
      | text t => exact absurd ho (h k t)
  · rw [own_bump_ne ps k' k hk]
    exact h k' s

theorem sumValues_put_count (ps : Platforms) (k : String) (n : Int)
    (h : own ps k = some (.count n)) :
    sumValues (slotFields (put ps k (.count (n + 1))))
      = (sumValues (slotFields ps)).map (· + 1) := by
  induction ps with
  | nil => simp [own] at h
  | cons kv rest ih =>
    obtain ⟨k', v'⟩ := kv
    by_cases hk : k' = k
    · subst hk
      simp only [own, if_true, Option.some.injEq] at h
      subst h
      simp only [put, if_true, slotFields_cons_count, sumValues_cons_num]
      cases sumValues (slotFields rest) with
      | none => rfl
      | some t => simp only [Option.map_some']; congr 1; ring
    · simp only [own, hk, if_false] at h
      simp only [put, hk, if_false]
      cases v' with
      | count m =>
        simp only [slotFields_cons_count, sumValues_cons_num, ih h]
        cases sumValues (slotFields rest) with
        | none => rfl
        | some t => simp only [Option.map_some']; congr 1; ring
      | text t => simp only [slotFields_cons_text, sumValues_cons_str, Option.map_none']

theorem sumValues_put_fresh (ps : Platforms) (k : String) (h : own ps k = none) :
    sumValues (slotFields (put ps k (.count 1)))
      = (sumValues (slotFields ps)).map (· + 1) := by
  induction ps with
  | nil => rfl
  | cons kv rest ih =>
    obtain ⟨k', v'⟩ := kv
    by_cases hk : k' = k
    · simp [own, hk] at h
    · simp only [own, hk, if_false] at h
      simp only [put, hk, if_false]
      cases v' with
      | count m =>
        simp only [slotFields_cons_count, sumValues_cons_num, ih h]
        cases sumValues (slotFields rest) with
        | none => rfl
        | some t => simp only [Option.map_some']; congr 1; ring
      | text t => simp only [slotFields_cons_text, sumValues_cons_str, Option.map_none']

theorem sumValues_bump (ps : Platforms) (k : String) (hi : inherited k = false)
    (h : numbersOnly ps) :
    sumValues (slotFields (bump ps k))
      = (sumValues (slotFields ps)).map (· + 1) := by
  rw [bump_eq_put ps k hi]
  cases ho : own ps k with
  | none => rw [nextSlot_fresh ps k hi ho]; exact sumValues_put_fresh ps k ho
  | some v =>
    cases v with
    | count n => rw [nextSlot_count ps k n ho]; exact sumValues_put_count ps k n ho
    | text t => exact absurd ho (h k t)

theorem sumValues_foldl_bump (ks : List String) (hi : ∀ k ∈ ks, inherited k = false) :
    ∀ ps : Platforms, numbersOnly ps →
      sumValues (slotFields (ks.foldl bump ps))
        = (sumValues (slotFields ps)).map (· + (ks.length : Int)) := by
  induction ks with
  | nil => intro ps _; simp
  | cons k rest ih =>
    intro ps h
    have hk := hi k (List.mem_cons_self _ _)
    rw [List.foldl_cons, ih (fun y hy => hi y (List.mem_cons_of_mem _ hy)) _
      (numbersOnly_bump ps k hk h), sumValues_bump ps k hk h]
    cases sumValues (slotFields ps) with
    | none => rfl
    | some t => simp only [Option.map_some', List.length_cons]; congr 1; push_cast; ring

theorem numbersOnly_nil : numbersOnly [] := by
  intro k s h
  cases h

/-! ## The handlers on a loaded snapshot -/

theorem getStats_of_keys (rt : Runtime) (key : Json → String) (d : Backing) (root : Json)
    (xs : List Json)
    (hload : readProductsFromFile d = .ok root)
    (hp : root.get "products" = some (.arr xs))
    (hk : ∀ x ∈ xs, platformKey rt x = .ok (key x)) :
    getStats rt d = .ok (Response.mk 200
      [("success", some (.bool true)),
       ("totalProducts", root.get "count"),
       ("platforms", some (.obj (slotFields ((xs.map key).foldl bump [])))),
       ("lastUpdate", root.get "lastUpdate")]) := by
  have ht := truthy_of_get hp
  simp [getStats, hload, ht, getProp_of_truthy ht, hp, arrayReceiver,
    tally_of_keys rt key xs [] hk, platformsJson, bind, Except.bind, pure, Except.pure]

theorem getStats_of_keyable (rt : Runtime) (d : Backing) (root : Json) (xs : List Json)
    (hload : readProductsFromFile d = .ok root)
    (hp : root.get "products" = some (.arr xs))
    (hk : ∀ x ∈ xs, ∃ k, platformKey rt x = .ok k) :
    ∃ ps, getStats rt d = .ok (Response.mk 200
      [("success", some (.bool true)),
       ("totalProducts", root.get "count"),
       ("platforms", some (platformsJson ps)),
       ("lastUpdate", root.get "lastUpdate")]) := by
  have ht := truthy_of_get hp
  obtain ⟨qs, hq⟩ := tally_ok rt xs [] hk
  exact ⟨qs, by simp [getStats, hload, ht, getProp_of_truthy ht, hp, arrayReceiver,
    hq, bind, Except.bind, pure, Except.pure]⟩

theorem getStats_of_truthy (rt : Runtime) (d : Backing) (root : Json) (s : Response)
    (hload : readProductsFromFile d = .ok root) (ht : truthy root = true)
    (h : getStats rt d = .ok s) :
    s.status = 200 ∧ s.field "success" = some (.bool true) := by
  simp only [getStats, hload, ht, getProp_of_truthy ht, bind, Except.bind, pure, Except.pure,
    Bool.not_true, Bool.false_eq_true, if_false] at h
  cases ha : arrayReceiver (root.get "products") with
  | error e => rw [ha] at h; cases h
  | ok items =>
    rw [ha] at h
    cases hq : tally rt [] items with
    | error e => simp only [hq] at h; cases h
    | ok ps =>
      simp only [hq] at h
      cases h
      exact ⟨rfl, rfl⟩

theorem labelOf_eq_iff (x : Json) (p : String) (hx : plainProduct x = true) :
    labelOf x = p ↔
      (x.get "platform" = some (.str p) ∨ (x.get "platform" = none ∧ p = "undefined")) := by
  simp only [plainProduct, Bool.and_eq_true, Bool.not_eq_true'] at hx
  obtain ⟨_, hpl⟩ := hx
  simp only [labelOf]
  cases hf : x.get "platform" with
  | none => simp; exact eq_comm
  | some v =>
    rw [hf] at hpl
    cases v <;> simp at hpl
    simp

theorem strictEqStr_iff (v : Option Json) (label : String) :
    strictEqStr v label = true ↔ v = some (.str label) := by
  cases v with
  | none => simp [strictEqStr]
  | some j => cases j <;> simp [strictEqStr]

theorem falsy_cases {root : Json} (h : truthy root = false) :
    root = .null ∨ root = .bool false ∨ root = .num 0 ∨ root = .str "" := by
  cases root with
  | null => exact Or.inl rfl
  | bool b => simp [truthy] at h; subst h; exact Or.inr (Or.inl rfl)
  | num n => simp [truthy] at h; subst h; exact Or.inr (Or.inr (Or.inl rfl))
  | str s => simp [truthy] at h; subst h; exact Or.inr (Or.inr (Or.inr rfl))
  | arr _ => simp [truthy] at h
  | obj _ => simp [truthy] at h

theorem isNull_iff (v : Json) : isNull v = true ↔ v = .null := by
  cases v <;> simp [isNull]

/-! ## The claims -/

/-- C1, as amended: for every loaded snapshot whose `products` field is a
sequence with no `null` element, the products returned by the Amazon handler
and by the Product Hunt handler are sub-sequences of the products returned by
`/api/trending`, in the same relative order; each is the filter of that
sequence by "the `platform` field is the string `p`", compared exactly; an
element with no `platform` field is in neither result. -/
theorem C1_platform_filter (d : Backing) (root : Json) (xs : List Json)
    (hload : readProductsFromFile d = .ok root)
    (hp : root.get "products" = some (.arr xs))
    (hx : ∀ x ∈ xs, isNull x = false) :
    ∃ all am ph : Response, ∃ ya yp : List Json,
      getAll d = .ok all ∧ getAmazon d = .ok am ∧ getProductHunt d = .ok ph ∧
      all.field "products" = some (.arr xs) ∧
      am.field "products" = some (.arr ya) ∧ ph.field "products" = some (.arr yp) ∧
      ya.Sublist xs ∧ yp.Sublist xs ∧
      (∀ f : Json → Bool, (∀ x, f x = true ↔ x.get "platform" = some (.str "Amazon")) →
        ya = xs.filter f) ∧
      (∀ f : Json → Bool, (∀ x, f x = true ↔ x.get "platform" = some (.str "Product Hunt")) →
        yp = xs.filter f) ∧
      (∀ x, x ∈ ya ↔ x ∈ xs ∧ x.get "platform" = some (.str "Amazon")) ∧
      (∀ x, x ∈ yp ↔ x ∈ xs ∧ x.get "platform" = some (.str "Product Hunt")) ∧
      (∀ x, x.get "platform" = none → x ∉ ya ∧ x ∉ yp) := by
  have hfil : ∀ (label : String) (f : Json → Bool),
      (∀ x, f x = true ↔ x.get "platform" = some (.str label)) →
      xs.filter (fun x => strictEqStr (x.get "platform") label) = xs.filter f := by
    intro label f hf
    apply List.filter_congr
    intro x _
    have h1 := hf x
    have h2 := strictEqStr_iff (x.get "platform") label
    cases hfx : f x <;> cases hs : strictEqStr (x.get "platform") label <;> simp_all
  have hmem : ∀ (label : String) (x : Json),
      x ∈ xs.filter (fun x => strictEqStr (x.get "platform") label)
        ↔ x ∈ xs ∧ x.get "platform" = some (.str label) := by
    intro label x
    rw [List.mem_filter, strictEqStr_iff]
  refine ⟨_, _, _, _, _, getAll_of_truthy d root hload (truthy_of_get hp),
    getByPlatform_of_items "Amazon" d root xs hload hp hx,
    getByPlatform_of_items "Product Hunt" d root xs hload hp hx, ?_, rfl, rfl,
    List.filter_sublist _, List.filter_sublist _, hfil "Amazon", hfil "Product Hunt",
    hmem "Amazon", hmem "Product Hunt", ?_⟩
  · exact hp
  · intro x hn
    constructor
    · intro hm
      have := ((hmem "Amazon" x).mp hm).2
      rw [hn] at this
      cases this
    · intro hm
      have := ((hmem "Product Hunt" x).mp hm).2
      rw [hn] at this
      cases this

/-- C1, witness: Scenario A, where the Amazon handler returns exactly the
first product and the Product Hunt handler exactly the second. -/
theorem C1_platform_filter_witness :
    ∃ all am ph : Response, ∃ ya yp : List Json,
      getAll (.parses scenarioA) = .ok all ∧ getAmazon (.parses scenarioA) = .ok am ∧
      getProductHunt (.parses scenarioA) = .ok ph ∧
      all.field "products" = some (.arr [.obj [("platform", .str "Amazon"), ("name", .str "X")],
        .obj [("platform", .str "Product Hunt"), ("name", .str "Y")]]) ∧
      am.field "products" = some (.arr ya) ∧ ph.field "products" = some (.arr yp) ∧
      ya.Sublist [.obj [("platform", .str "Amazon"), ("name", .str "X")],
        .obj [("platform", .str "Product Hunt"), ("name", .str "Y")]] ∧
      yp.Sublist [.obj [("platform", .str "Amazon"), ("name", .str "X")],
        .obj [("platform", .str "Product Hunt"), ("name", .str "Y")]] ∧
      (∀ f : Json → Bool, (∀ x, f x = true ↔ x.get "platform" = some (.str "Amazon")) →
        ya = [Json.obj [("platform", .str "Amazon"), ("name", .str "X")],
          .obj [("platform", .str "Product Hunt"), ("name", .str "Y")]].filter f) ∧
      (∀ f : Json → Bool, (∀ x, f x = true ↔ x.get "platform" = some (.str "Product Hunt")) →
        yp = [Json.obj [("platform", .str "Amazon"), ("name", .str "X")],
          .obj [("platform", .str "Product Hunt"), ("name", .str "Y")]].filter f) ∧
      (∀ x, x ∈ ya ↔ x ∈ [Json.obj [("platform", .str "Amazon"), ("name", .str "X")],
          .obj [("platform", .str "Product Hunt"), ("name", .str "Y")]]
        ∧ x.get "platform" = some (.str "Amazon")) ∧
      (∀ x, x ∈ yp ↔ x ∈ [Json.obj [("platform", .str "Amazon"), ("name", .str "X")],
          .obj [("platform", .str "Product Hunt"), ("name", .str "Y")]]
        ∧ x.get "platform" = some (.str "Product Hunt")) ∧
      (∀ x, x.get "platform" = none → x ∉ ya ∧ x ∉ yp) :=
  C1_platform_filter (.parses scenarioA) scenarioA
    [.obj [("platform", .str "Amazon"), ("name", .str "X")],
      .obj [("platform", .str "Product Hunt"), ("name", .str "Y")]]
    rfl rfl
    (by
      intro x hx
      simp only [List.mem_cons, List.mem_singleton, List.not_mem_nil, or_false] at hx
      rcases hx with rfl | rfl <;> rfl)

/-- C1, counterexample: on `{"count":1,"lastUpdate":"T","products":[null]}` the
loader produces a snapshot whose `products` field is a sequence and
`/api/trending` returns it, but the reads `p.platform` in both filters throw
on the `null` element: neither handler returns products. -/
theorem C1_null_element_raises :
    readProductsFromFile (.parses docNullElement) = .ok docNullElement ∧
    docNullElement.get "products" = some (.arr [.null]) ∧
    (∃ all, getAll (.parses docNullElement) = .ok all ∧
      all.field "products" = some (.arr [.null])) ∧
    getAmazon (.parses docNullElement) = .error .typeError ∧
    getProductHunt (.parses docNullElement) = .error .typeError :=
  ⟨rfl, rfl, ⟨_, rfl, rfl⟩, rfl, rfl⟩

/-- C2, as amended: for every loaded snapshot whose products are mappings with
a `platform` that is a string or is missing, none of the labels being a name
that `Object.prototype` defines, the values of the `platforms` mapping of
`/api/stats` sum to the number of products in the snapshot, while
`totalProducts` is the stored `count`: the sum equals `totalProducts` exactly
when the stored `count` is that number. -/
theorem C2_platform_sum (rt : Runtime) (d : Backing) (root : Json) (xs : List Json)
    (hload : readProductsFromFile d = .ok root)
    (hp : root.get "products" = some (.arr xs))
    (hplain : ∀ x ∈ xs, plainProduct x = true)
    (hi : ∀ x ∈ xs, inherited (labelOf x) = false) :
    ∃ s : Response, ∃ fs : List (String × Json),
      getStats rt d = .ok s ∧ s.status = 200 ∧
      s.field "platforms" = some (.obj fs) ∧
      sumValues fs = some (xs.length : Int) ∧
      s.field "totalProducts" = root.get "count" ∧
      (∀ n : Int, s.field "totalProducts" = some (.num n) →
        (sumValues fs = some n ↔ n = (xs.length : Int))) := by
  have hs := getStats_of_keys rt labelOf d root xs hload hp
    (fun x hx => platformKey_of_plain rt x (hplain x hx))
  have hsum : sumValues (slotFields ((xs.map labelOf).foldl bump []))
      = some (xs.length : Int) := by
    have hk : ∀ k ∈ xs.map labelOf, inherited k = false := by
      intro k hk
      obtain ⟨x, hx, rfl⟩ := List.mem_map.mp hk
      exact hi x hx
    have := sumValues_foldl_bump (xs.map labelOf) hk [] numbersOnly_nil
    rw [this]
    simp [slotFields, sumValues]
  refine ⟨_, _, hs, rfl, rfl, hsum, rfl, ?_⟩
  intro n _
  rw [hsum]
  constructor
  · intro h; injection h with h; exact h.symm
  · intro h; rw [h]

/-- C2, witness: Scenario A, where the two values `1` and `1` sum to the two
products. -/
theorem C2_platform_sum_witness :
    readProductsFromFile (.parses scenarioA) = .ok scenarioA ∧
    ∀ rt : Runtime, ∃ s : Response, ∃ fs : List (String × Json),
      getStats rt (.parses scenarioA) = .ok s ∧ s.status = 200 ∧
      s.field "platforms" = some (.obj fs) ∧
      sumValues fs = some 2 ∧
      s.field "totalProducts" = some (.num 2) ∧
      (∀ n : Int, s.field "totalProducts" = some (.num n) →
        (sumValues fs = some n ↔ n = 2)) :=
  ⟨rfl, fun rt => C2_platform_sum rt (.parses scenarioA) scenarioA
    [.obj [("platform", .str "Amazon"), ("name", .str "X")],
      .obj [("platform", .str "Product Hunt"), ("name", .str "Y")]]
    rfl rfl
    (by
      intro x hx
      simp only [List.mem_cons, List.mem_singleton, List.not_mem_nil, or_false] at hx
      rcases hx with rfl | rfl <;> rfl)
    (by
      intro x hx
      simp only [List.mem_cons, List.mem_singleton, List.not_mem_nil, or_false] at hx
      rcases hx with rfl | rfl <;> rfl)⟩

/-- C2, counterexample: on
`{"count":3,"lastUpdate":"T","products":[{"platform":"Amazon","name":"X"}]}`, a
valid snapshot, `/api/stats` reports `totalProducts: 3` and
`platforms: {"Amazon": 1}`, whose values sum to 1. -/
theorem C2_sum_differs_from_totalProducts :
    readProductsFromFile (.parses docStoredCount) = .ok docStoredCount ∧
    isNum (docStoredCount.get "count") = true ∧
    isStr (docStoredCount.get "lastUpdate") = true ∧
    (∀ rt : Runtime, ∃ s, getStats rt (.parses docStoredCount) = .ok s ∧
      s.field "totalProducts" = some (.num 3) ∧
      s.field "platforms" = some (.obj [("Amazon", .num 1)]) ∧
      sumValues [("Amazon", .num 1)] = some 1) :=
  ⟨rfl, rfl, rfl, fun _ => ⟨_, rfl, rfl, rfl, rfl⟩⟩

/-- C3, as amended: `readProductsFromFile` never throws; it returns `null` for
a backing document that is missing, unreadable or not parseable, and for every
parseable document it returns the parsed root as it is, with no structural
validation: the result is `null` exactly when the document is missing,
unreadable, not parseable, or the JSON text `null`. -/
theorem C3_loader_returns_parsed_root :
    (∀ d : Backing, ∃ v, readProductsFromFile d = .ok v) ∧
    readProductsFromFile .missing = .ok .null ∧
    readProductsFromFile .unreadable = .ok .null ∧
    readProductsFromFile .malformed = .ok .null ∧
    (∀ root : Json, readProductsFromFile (.parses root) = .ok root) ∧
    (∀ d : Backing, readProductsFromFile d = .ok .null ↔
      (d = .missing ∨ d = .unreadable ∨ d = .malformed ∨ d = .parses .null)) := by
  refine ⟨fun d => ⟨_, readProductsFromFile_eq d⟩, rfl, rfl, rfl, fun _ => rfl, ?_⟩
  intro d
  cases d with
  | missing => simp [readProductsFromFile, readAndParse]
  | unreadable => simp [readProductsFromFile, readAndParse]
  | malformed => simp [readProductsFromFile, readAndParse]
  | parses root => simp [readProductsFromFile, readAndParse]

/-- C3, counterexample: the document `{"count":"many"}` is parseable but
structurally invalid (no `products` field, `count` not a number, no
`lastUpdate`), and `readProductsFromFile` returns it, not `null`. -/
theorem C3_invalid_document_is_returned :
    docNoProducts.get "products" = none ∧
    isNum (docNoProducts.get "count") = false ∧
    isStr (docNoProducts.get "lastUpdate") = false ∧
    readProductsFromFile (.parses docNoProducts) = .ok docNoProducts ∧
    readProductsFromFile (.parses docNoProducts) ≠ .ok .null := by
  refine ⟨rfl, rfl, rfl, rfl, ?_⟩
  intro h
  simp [readProductsFromFile, readAndParse, docNoProducts] at h

/-- C4: whenever `readProductsFromFile` returns `null`, each of the handlers
of `/api/trending`, `/api/trending/amazon`, `/api/trending/producthunt` and
`/api/stats` responds with status 404 and a body whose `success` field is
`false`, which carries an `error` string and has no `products`, `count`,
`platforms` or `lastUpdate` field. -/
theorem C4_absence_is_404 (rt : Runtime) (d : Backing)
    (h : readProductsFromFile d = .ok .null) :
    ∀ handler ∈ [getAll, getAmazon, getProductHunt, getStats rt],
      ∃ r : Response, handler d = .ok r ∧ r.status = 404 ∧
        r.field "success" = some (.bool false) ∧
        (∃ msg, r.field "error" = some (.str msg)) ∧
        "products" ∉ r.keys ∧ "count" ∉ r.keys ∧ "platforms" ∉ r.keys ∧
        "lastUpdate" ∉ r.keys ∧
        r.field "products" = none ∧ r.field "count" = none ∧
        r.field "platforms" = none ∧ r.field "lastUpdate" = none := by
  intro handler hmem
  simp only [List.mem_cons, List.mem_singleton, List.not_mem_nil, or_false] at hmem
  rcases hmem with rfl | rfl | rfl | rfl
  · exact ⟨_, getAll_of_falsy d .null h rfl, rfl, rfl, ⟨_, rfl⟩,
      by decide, by decide, by decide, by decide, rfl, rfl, rfl, rfl⟩
  · exact ⟨_, getByPlatform_of_falsy "Amazon" d .null h rfl, rfl, rfl, ⟨_, rfl⟩,
      by decide, by decide, by decide, by decide, rfl, rfl, rfl, rfl⟩
  · exact ⟨_, getByPlatform_of_falsy "Product Hunt" d .null h rfl, rfl, rfl, ⟨_, rfl⟩,
      by decide, by decide, by decide, by decide, rfl, rfl, rfl, rfl⟩
  · exact ⟨_, getStats_of_falsy rt d .null h rfl, rfl, rfl, ⟨_, rfl⟩,
      by decide, by decide, by decide, by decide, rfl, rfl, rfl, rfl⟩

/-- C4, witness: a missing `products.json`. -/
theorem C4_absence_is_404_witness :
    readProductsFromFile .missing = .ok .null ∧
    ∀ rt : Runtime, ∀ handler ∈ [getAll, getAmazon, getProductHunt, getStats rt],
      ∃ r : Response, handler .missing = .ok r ∧ r.status = 404 ∧
        r.field "success" = some (.bool false) ∧
        (∃ msg, r.field "error" = some (.str msg)) ∧
        "products" ∉ r.keys ∧ "count" ∉ r.keys ∧ "platforms" ∉ r.keys ∧
        "lastUpdate" ∉ r.keys ∧
        r.field "products" = none ∧ r.field "count" = none ∧
        r.field "platforms" = none ∧ r.field "lastUpdate" = none :=
  ⟨rfl, fun rt => C4_absence_is_404 rt .missing rfl⟩

/-- C5, as amended: when the backing document is missing, `/api/health`
responds with status 200 and a body containing `status: "healthy"`,
`dataAvailable: false` and `productCount: 0`; and for every state of the
backing document it responds with status 200 and a body that contains
`status: "healthy"` and has no `success` field. -/
theorem C5_health_body (now : String) :
    (∃ r : Response, getHealth now .missing = .ok r ∧ r.status = 200 ∧
      r.field "status" = some (.str "healthy") ∧
      r.field "dataAvailable" = some (.bool false) ∧
      r.field "productCount" = some (.num 0)) ∧
    (∀ d : Backing, ∃ r : Response, getHealth now d = .ok r ∧ r.status = 200 ∧
      r.field "status" = some (.str "healthy") ∧
      "success" ∉ r.keys ∧ r.field "success" = none) := by
  refine ⟨⟨_, rfl, rfl, rfl, rfl, rfl⟩, ?_⟩
  intro d
  refine ⟨_, getHealth_eq now d _ (readProductsFromFile_eq d), rfl, rfl, ?_, rfl⟩
  generalize (match d with | .parses root => root | _ => Json.null) = root
  cases hc : (if truthy root then root.get "count" else some (.num 0)) <;>
    simp [Response.keys, hc]

/-- C5, counterexample: with `products.json` missing, the body of
`/api/health` has no `success` field. -/
theorem C5_health_has_no_success_flag :
    ∃ r : Response, getHealth "2024-01-01T00:00:00.000Z" .missing = .ok r ∧
      r.keys = ["status", "timestamp", "dataAvailable", "productCount"] ∧
      r.field "success" = none ∧
      r.field "success" ≠ some (.bool true) :=
  ⟨_, rfl, rfl, rfl, by intro h; cases h⟩

theorem getByPlatform_envelope (label : String) (d : Backing) (root : Json) (xs : List Json)
    (hload : readProductsFromFile d = .ok root)
    (hp : root.get "products" = some (.arr xs))
    (hx : ∀ x ∈ xs, isNull x = false) :
    ∃ r : Response, ∃ ys : List Json,
      getByPlatform label d = .ok r ∧ r.status = 200 ∧
      r.field "success" = some (.bool true) ∧
      r.field "products" = some (.arr ys) ∧
      r.field "count" = some (.num (ys.length : Int)) ∧
      r.field "lastUpdate" = root.get "lastUpdate" ∧
      ((∀ x ∈ xs, x.get "platform" ≠ some (.str label)) →
        r.field "count" = some (.num 0) ∧ r.field "products" = some (.arr [])) := by
  refine ⟨_, _, getByPlatform_of_items label d root xs hload hp hx, rfl, rfl, rfl, rfl, rfl, ?_⟩
  intro hnone
  have : xs.filter (fun p => strictEqStr (p.get "platform") label) = [] := by
    rw [List.filter_eq_nil_iff]
    intro x hxm h
    exact hnone x hxm ((strictEqStr_iff _ _).mp h)
  show some (Json.num ((xs.filter (fun p => strictEqStr (p.get "platform") label)).length : Int))
      = some (.num 0) ∧
    some (Json.arr (xs.filter (fun p => strictEqStr (p.get "platform") label))) = some (.arr [])
  rw [this]
  exact ⟨rfl, rfl⟩

/-- C6, as amended: for every loaded snapshot whose `products` field is a
sequence with no `null` element, the Amazon and Product Hunt handlers respond
with status 200, `success: true`, a `count` equal to the length of the
`products` sequence of the same response, and the snapshot's `lastUpdate`;
when no product matches the label the response is `success: true`,
`count: 0`, `products: []`. -/
theorem C6_filtered_envelope (d : Backing) (root : Json) (xs : List Json)
    (hload : readProductsFromFile d = .ok root)
    (hp : root.get "products" = some (.arr xs))
    (hx : ∀ x ∈ xs, isNull x = false) :
    (∃ r : Response, ∃ ys : List Json,
      getAmazon d = .ok r ∧ r.status = 200 ∧
      r.field "success" = some (.bool true) ∧
      r.field "products" = some (.arr ys) ∧
      r.field "count" = some (.num (ys.length : Int)) ∧
      r.field "lastUpdate" = root.get "lastUpdate" ∧
      ((∀ x ∈ xs, x.get "platform" ≠ some (.str "Amazon")) →
        r.field "count" = some (.num 0) ∧ r.field "products" = some (.arr []))) ∧
    (∃ r : Response, ∃ ys : List Json,
      getProductHunt d = .ok r ∧ r.status = 200 ∧
      r.field "success" = some (.bool true) ∧
      r.field "products" = some (.arr ys) ∧
      r.field "count" = some (.num (ys.length : Int)) ∧
      r.field "lastUpdate" = root.get "lastUpdate" ∧
      ((∀ x ∈ xs, x.get "platform" ≠ some (.str "Product Hunt")) →
        r.field "count" = some (.num 0) ∧ r.field "products" = some (.arr []))) :=
  ⟨getByPlatform_envelope "Amazon" d root xs hload hp hx,
   getByPlatform_envelope "Product Hunt" d root xs hload hp hx⟩

/-- C6, witness: a snapshot with one Amazon product and a stored count of 3;
the Amazon handler counts 1 and the Product Hunt handler answers the empty
success response. -/
theorem C6_filtered_envelope_witness :
    (∃ r : Response, ∃ ys : List Json,
      getAmazon (.parses docStoredCount) = .ok r ∧ r.status = 200 ∧
      r.field "success" = some (.bool true) ∧
      r.field "products" = some (.arr ys) ∧
      r.field "count" = some (.num (ys.length : Int)) ∧
      r.field "lastUpdate" = some (.str "T") ∧
      ((∀ x ∈ [Json.obj [("platform", .str "Amazon"), ("name", .str "X")]],
          x.get "platform" ≠ some (.str "Amazon")) →
        r.field "count" = some (.num 0) ∧ r.field "products" = some (.arr []))) ∧
    (∃ r : Response, ∃ ys : List Json,
      getProductHunt (.parses docStoredCount) = .ok r ∧ r.status = 200 ∧
      r.field "success" = some (.bool true) ∧
      r.field "products" = some (.arr ys) ∧
      r.field "count" = some (.num (ys.length : Int)) ∧
      r.field "lastUpdate" = some (.str "T") ∧
      ((∀ x ∈ [Json.obj [("platform", .str "Amazon"), ("name", .str "X")]],
          x.get "platform" ≠ some (.str "Product Hunt")) →
        r.field "count" = some (.num 0) ∧ r.field "products" = some (.arr []))) :=
  C6_filtered_envelope (.parses docStoredCount) docStoredCount
    [.obj [("platform", .str "Amazon"), ("name", .str "X")]]
    rfl rfl
    (by
      intro x hx
      simp only [List.mem_singleton] at hx
      subst hx
      rfl)

/-- C6, counterexample: on
`{"count":2,"lastUpdate":"T","products":[{"platform":"Product Hunt","name":"Y"},null]}`
the `products` field is a sequence, and both handlers throw a `TypeError` on
the `null` element instead of responding with `success: true`. -/
theorem C6_null_element_no_response :
    readProductsFromFile (.parses docNullSecond) = .ok docNullSecond ∧
    docNullSecond.get "products"
      = some (.arr [.obj [("platform", .str "Product Hunt"), ("name", .str "Y")], .null]) ∧
    getProductHunt (.parses docNullSecond) = .error .typeError ∧
    getAmazon (.parses docNullSecond) = .error .typeError :=
  ⟨rfl, rfl, rfl, rfl⟩

/-- C7, as amended: for every loaded snapshot whose products are mappings
with a `platform` that is a string or is missing, and for every string label
`p` that is not a name `Object.prototype` defines, the `platforms` mapping of
`/api/stats` has `p` as a key if and only if at least one product is counted
under `p`, that is, has `platform` equal to `p` or, for `p = "undefined"`, has
no `platform`; the value stored under `p` is then the number of those
products, a positive integer. -/
theorem C7_platform_counts (rt : Runtime) (d : Backing) (root : Json) (xs : List Json)
    (hload : readProductsFromFile d = .ok root)
    (hp : root.get "products" = some (.arr xs))
    (hplain : ∀ x ∈ xs, plainProduct x = true)
    (p : String) (hi : inherited p = false) :
    ∃ s : Response, ∃ fs : List (String × Json),
      getStats rt d = .ok s ∧ s.status = 200 ∧
      s.field "platforms" = some (.obj fs) ∧
      ((∃ v, ownField fs p = some v) ↔ ∃ x ∈ xs, labelOf x = p) ∧
      (∀ v, ownField fs p = some v →
        v = .num ((xs.map labelOf).count p : Int) ∧ 0 < (xs.map labelOf).count p) ∧
      (∀ x ∈ xs, (labelOf x = p ↔
        (x.get "platform" = some (.str p) ∨ (x.get "platform" = none ∧ p = "undefined")))) := by
  have hs := getStats_of_keys rt labelOf d root xs hload hp
    (fun x hx => platformKey_of_plain rt x (hplain x hx))
  have hnd : (((xs.map labelOf).foldl bump []).map Prod.fst).Nodup :=
    nodup_foldl_bump (xs.map labelOf) [] List.nodup_nil
  have hown := (own_foldl_bump p hi (xs.map labelOf) []).1 rfl
  have hfield : ownField (slotFields ((xs.map labelOf).foldl bump [])) p
      = if (xs.map labelOf).count p = 0 then none
        else some (.num ((xs.map labelOf).count p : Int)) := by
    rw [ownField_platforms _ p hnd, hown]
    split <;> rfl
  refine ⟨_, _, hs, rfl, rfl, ?_, ?_, fun x hx => labelOf_eq_iff x p (hplain x hx)⟩
  · rw [hfield]
    by_cases hc : (xs.map labelOf).count p = 0
    · rw [if_pos hc]
      constructor
      · rintro ⟨v, hv⟩; cases hv
      · rintro ⟨x, hx, hl⟩
        have : p ∈ xs.map labelOf := List.mem_map.mpr ⟨x, hx, hl⟩
        exact absurd (List.count_eq_zero.mp hc) (fun h => h this)
    · rw [if_neg hc]
      constructor
      · intro _
        have : p ∈ xs.map labelOf := by
          by_contra hn
          exact hc (List.count_eq_zero.mpr hn)
        obtain ⟨x, hx, hl⟩ := List.mem_map.mp this
        exact ⟨x, hx, hl⟩
      · intro _; exact ⟨_, rfl⟩
  · intro v hv
    rw [hfield] at hv
    by_cases hc : (xs.map labelOf).count p = 0
    · rw [if_pos hc] at hv; cases hv
    · rw [if_neg hc] at hv
      injection hv with hv
      exact ⟨hv.symm, Nat.pos_of_ne_zero hc⟩

/-- C7, witness: Scenario A and the label `Amazon`, stored with the value 1. -/
theorem C7_platform_counts_witness :
    inherited "Amazon" = false ∧
    ∀ rt : Runtime, ∃ s : Response, ∃ fs : List (String × Json),
      getStats rt (.parses scenarioA) = .ok s ∧ s.status = 200 ∧
      s.field "platforms" = some (.obj fs) ∧
      ((∃ v, ownField fs "Amazon" = some v) ↔
        ∃ x ∈ [Json.obj [("platform", .str "Amazon"), ("name", .str "X")],
          .obj [("platform", .str "Product Hunt"), ("name", .str "Y")]], labelOf x = "Amazon") ∧
      (∀ v, ownField fs "Amazon" = some v →
        v = .num (([Json.obj [("platform", .str "Amazon"), ("name", .str "X")],
            .obj [("platform", .str "Product Hunt"), ("name", .str "Y")]].map labelOf).count
              "Amazon" : Int) ∧
        0 < ([Json.obj [("platform", .str "Amazon"), ("name", .str "X")],
            .obj [("platform", .str "Product Hunt"), ("name", .str "Y")]].map labelOf).count
              "Amazon") ∧
      (∀ x ∈ [Json.obj [("platform", .str "Amazon"), ("name", .str "X")],
          .obj [("platform", .str "Product Hunt"), ("name", .str "Y")]],
        (labelOf x = "Amazon" ↔
          (x.get "platform" = some (.str "Amazon")
            ∨ (x.get "platform" = none ∧ "Amazon" = "undefined")))) :=
  ⟨rfl, fun rt => C7_platform_counts rt (.parses scenarioA) scenarioA
    [.obj [("platform", .str "Amazon"), ("name", .str "X")],
      .obj [("platform", .str "Product Hunt"), ("name", .str "Y")]]
    rfl rfl
    (by
      intro x hx
      simp only [List.mem_cons, List.mem_singleton, List.not_mem_nil, or_false] at hx
      rcases hx with rfl | rfl <;> rfl)
    "Amazon" rfl⟩

/-- C7, counterexample: on `{"count":1,"lastUpdate":"T","products":[{"name":"X"}]}`
the `platforms` mapping is `{"undefined": 1}`: it has the key `undefined`
although no product has a `platform` equal to `"undefined"` (the only product
has no `platform` at all). -/
theorem C7_missing_platform_is_counted :
    readProductsFromFile (.parses docNoPlatform) = .ok docNoPlatform ∧
    docNoPlatform.get "products" = some (.arr [.obj [("name", .str "X")]]) ∧
    (Json.obj [("name", .str "X")]).get "platform" = none ∧
    (∀ rt : Runtime, ∃ s, getStats rt (.parses docNoPlatform) = .ok s ∧
      s.field "platforms" = some (.obj [("undefined", .num 1)]) ∧
      ownField [("undefined", .num 1)] "undefined" = some (.num 1)) :=
  ⟨rfl, rfl, rfl, fun _ => ⟨_, rfl, rfl, rfl⟩⟩

/-- C8, as amended: for every backing document that loads and whose
`products` field is the empty sequence, `/api/trending` responds with
`success: true`, `products: []` and the stored `count` (0 only when the
document stores 0), and `/api/stats` responds with an empty `platforms`
mapping. -/
theorem C8_empty_products (rt : Runtime) (d : Backing) (root : Json)
    (hload : readProductsFromFile d = .ok root)
    (hp : root.get "products" = some (.arr [])) :
    (∃ a : Response, getAll d = .ok a ∧ a.status = 200 ∧
      a.field "success" = some (.bool true) ∧
      a.field "products" = some (.arr []) ∧
      a.field "count" = root.get "count") ∧
    (∃ s : Response, getStats rt d = .ok s ∧ s.status = 200 ∧
      s.field "success" = some (.bool true) ∧
      s.field "platforms" = some (.obj [])) := by
  refine ⟨⟨_, getAll_of_truthy d root hload (truthy_of_get hp), rfl, rfl, hp, rfl⟩, ?_⟩
  have hs := getStats_of_keys rt labelOf d root [] hload hp (fun x hx => by cases hx)
  exact ⟨_, hs, rfl, rfl, rfl⟩

/-- C8, witness: the document of Scenario C with a stored count of 0. -/
theorem C8_empty_products_witness :
    (Json.obj [("count", .num 0), ("lastUpdate", .str "T"), ("products", .arr [])]).get
      "products" = some (.arr []) ∧
    ∀ rt : Runtime,
    (∃ a : Response,
      getAll (.parses (.obj [("count", .num 0), ("lastUpdate", .str "T"),
        ("products", .arr [])])) = .ok a ∧ a.status = 200 ∧
      a.field "success" = some (.bool true) ∧
      a.field "products" = some (.arr []) ∧
      a.field "count" = some (.num 0)) ∧
    (∃ s : Response,
      getStats rt (.parses (.obj [("count", .num 0), ("lastUpdate", .str "T"),
        ("products", .arr [])])) = .ok s ∧ s.status = 200 ∧
      s.field "success" = some (.bool true) ∧
      s.field "platforms" = some (.obj [])) :=
  ⟨rfl, fun rt => C8_empty_products rt
    (.parses (.obj [("count", .num 0), ("lastUpdate", .str "T"), ("products", .arr [])]))
    (.obj [("count", .num 0), ("lastUpdate", .str "T"), ("products", .arr [])]) rfl rfl⟩

/-- C8, counterexample: on `{"count":5,"lastUpdate":"T","products":[]}` the
document loads with an empty `products` sequence and `/api/trending` responds
with `count: 5`, not `count: 0`. -/
theorem C8_stored_count_is_served :
    readProductsFromFile (.parses docEmptyProducts) = .ok docEmptyProducts ∧
    docEmptyProducts.get "products" = some (.arr []) ∧
    (∃ a, getAll (.parses docEmptyProducts) = .ok a ∧
      a.field "success" = some (.bool true) ∧
      a.field "products" = some (.arr []) ∧
      a.field "count" = some (.num 5)) :=
  ⟨rfl, rfl, ⟨_, rfl, rfl, rfl, rfl⟩⟩

/-- C9, as amended: for every content of the backing file, `productCount` is
0 whenever `/api/health` reports `dataAvailable: false`; and for every content
whose loaded root is not one of the falsy values `false`, `0` and `""`,
`/api/health` reports `dataAvailable: true` if and only if the loader returned
a value other than `null`, if and only if `/api/trending` responds with
`success: true` rather than the 404 absence response; `dataAvailable` is
`false` if and only if `/api/stats` gives the 404 absence response, and
whenever `/api/stats` responds at all it responds with `success: true`
exactly when `dataAvailable` is `true`. -/
theorem C9_health_agrees (now : String) (rt : Runtime) (d : Backing) (root : Json)
    (hload : readProductsFromFile d = .ok root) :
    ∃ h : Response, getHealth now d = .ok h ∧ h.status = 200 ∧
      (h.field "dataAvailable" = some (.bool false) →
        h.field "productCount" = some (.num 0)) ∧
      (root ≠ .bool false → root ≠ .num 0 → root ≠ .str "" →
        (h.field "dataAvailable" = some (.bool true) ↔ root ≠ .null) ∧
        (h.field "dataAvailable" = some (.bool false) ↔ root = .null) ∧
        ∃ a : Response, getAll d = .ok a ∧
          (h.field "dataAvailable" = some (.bool true) ↔
            (a.status = 200 ∧ a.field "success" = some (.bool true))) ∧
          (h.field "dataAvailable" = some (.bool false) ↔
            (a.status = 404 ∧ a.field "success" = some (.bool false))) ∧
          (h.field "dataAvailable" = some (.bool false) ↔
            ∃ s : Response, getStats rt d = .ok s ∧ s.status = 404 ∧
              s.field "success" = some (.bool false)) ∧
          (∀ s : Response, getStats rt d = .ok s →
            (h.field "dataAvailable" = some (.bool true) ↔
              (s.status = 200 ∧ s.field "success" = some (.bool true))))) := by
  obtain ⟨h, hget, hst, F1, F2, F3⟩ : ∃ h : Response, getHealth now d = .ok h ∧ h.status = 200 ∧
      (h.field "dataAvailable" = some (.bool true) ↔ root ≠ .null) ∧
      (h.field "dataAvailable" = some (.bool false) ↔ root = .null) ∧
      (h.field "dataAvailable" = some (.bool false) →
        h.field "productCount" = some (.num 0)) := by
    have hda : ∀ b : Bool, (Response.mk 200
        [("status", some (.str "healthy")),
         ("timestamp", some (.str now)),
         ("dataAvailable", some (.bool (!isNull root))),
         ("productCount", if truthy root then root.get "count" else some (.num 0))]).field
          "dataAvailable" = some (.bool b) ↔ (!isNull root) = b := by
      intro b
      show some (Json.bool (!isNull root)) = some (.bool b) ↔ _
      constructor
      · intro h; injection h with h; injection h
      · intro h; rw [h]
    have htrue : (!isNull root) = true ↔ root ≠ .null := by
      rw [Bool.not_eq_true', ← Bool.not_eq_true, isNull_iff]
    have hfalse : (!isNull root) = false ↔ root = .null := by
      rw [Bool.not_eq_false', isNull_iff]
    refine ⟨_, getHealth_eq now d root hload, rfl, (hda true).trans htrue,
      (hda false).trans hfalse, ?_⟩
    intro h
    have hn : root = .null := hfalse.mp ((hda false).mp h)
    subst hn
    rfl
  refine ⟨h, hget, hst, F3, ?_⟩
  intro h1 h2 h3
  refine ⟨F1, F2, ?_⟩
  cases ht : truthy root with
  | false =>
    have hn : root = .null := by
      rcases falsy_cases ht with h | h | h | h
      · exact h
      · exact absurd h h1
      · exact absurd h h2
      · exact absurd h h3
    subst hn
    refine ⟨_, getAll_of_falsy d .null hload rfl, ?_, ?_, ?_, ?_⟩
    · rw [F1]
      constructor
      · intro h; exact absurd rfl h
      · rintro ⟨h, _⟩; cases h
    · rw [F2]
      constructor
      · intro _; exact ⟨rfl, rfl⟩
      · intro _; rfl
    · rw [F2]
      constructor
      · intro _; exact ⟨_, getStats_of_falsy rt d .null hload rfl, rfl, rfl⟩
      · intro _; rfl
    · intro s hs
      rw [getStats_of_falsy rt d .null hload rfl] at hs
      cases hs
      rw [F1]
      constructor
      · intro h; exact absurd rfl h
      · rintro ⟨h, _⟩; cases h
  | true =>
    have hnn : root ≠ .null := by
      rintro rfl
      cases ht
    refine ⟨_, getAll_of_truthy d root hload ht, ?_, ?_, ?_, ?_⟩
    · rw [F1]
      constructor
      · intro _; exact ⟨rfl, rfl⟩
      · intro _; exact hnn
    · rw [F2]
      constructor
      · intro h; exact absurd h hnn
      · rintro ⟨h, _⟩; cases h
    · rw [F2]
      constructor
      · intro h; exact absurd h hnn
      · rintro ⟨s, hs, h404, _⟩
        have h200 := (getStats_of_truthy rt d root s hload ht hs).1
        rw [h200] at h404
        cases h404
    · intro s hs
      rw [F1]
      constructor
      · intro _; exact getStats_of_truthy rt d root s hload ht hs
      · intro _; exact hnn

/-- C9, witness: Scenario A, where `/api/health` reports `dataAvailable: true`
and `/api/trending` and `/api/stats` respond with `success: true`. -/
theorem C9_health_agrees_witness :
    readProductsFromFile (.parses scenarioA) = .ok scenarioA ∧
    ∀ rt : Runtime,
    ∃ h : Response, getHealth "2024-01-01T00:00:00.000Z" (.parses scenarioA) = .ok h ∧
      h.status = 200 ∧
      (h.field "dataAvailable" = some (.bool false) →
        h.field "productCount" = some (.num 0)) ∧
      (scenarioA ≠ .bool false → scenarioA ≠ .num 0 → scenarioA ≠ .str "" →
        (h.field "dataAvailable" = some (.bool true) ↔ scenarioA ≠ .null) ∧
        (h.field "dataAvailable" = some (.bool false) ↔ scenarioA = .null) ∧
        ∃ a : Response, getAll (.parses scenarioA) = .ok a ∧
          (h.field "dataAvailable" = some (.bool true) ↔
            (a.status = 200 ∧ a.field "success" = some (.bool true))) ∧
          (h.field "dataAvailable" = some (.bool false) ↔
            (a.status = 404 ∧ a.field "success" = some (.bool false))) ∧
          (h.field "dataAvailable" = some (.bool false) ↔
            ∃ s : Response, getStats rt (.parses scenarioA) = .ok s ∧ s.status = 404 ∧
              s.field "success" = some (.bool false)) ∧
          (∀ s : Response, getStats rt (.parses scenarioA) = .ok s →
            (h.field "dataAvailable" = some (.bool true) ↔
              (s.status = 200 ∧ s.field "success" = some (.bool true))))) :=
  ⟨rfl, fun rt =>
    C9_health_agrees "2024-01-01T00:00:00.000Z" rt (.parses scenarioA) scenarioA rfl⟩

/-- C9, counterexample: when `products.json` holds the JSON text `false`, the
loader returns `false`; `/api/health` reports `dataAvailable: true` (the test
is `data !== null`) while `/api/trending` and `/api/stats` give the 404
absence response (their test is `!data`). And when it holds the text `{}`,
`/api/health` reports `dataAvailable: true` and `/api/trending` responds with
`success: true`, while `/api/stats` throws on `data.products.forEach` and so
does not respond with `success: true`. -/
theorem C9_false_root_disagrees :
    readProductsFromFile (.parses (.bool false)) = .ok (.bool false) ∧
    (∃ h, getHealth "2024-01-01T00:00:00.000Z" (.parses (.bool false)) = .ok h ∧
      h.field "dataAvailable" = some (.bool true) ∧
      h.field "productCount" = some (.num 0)) ∧
    (∃ a, getAll (.parses (.bool false)) = .ok a ∧ a.status = 404 ∧
      a.field "success" = some (.bool false)) ∧
    (∀ rt : Runtime, ∃ s, getStats rt (.parses (.bool false)) = .ok s ∧ s.status = 404 ∧
      s.field "success" = some (.bool false)) ∧
    (∃ h, getHealth "2024-01-01T00:00:00.000Z" (.parses (.obj [])) = .ok h ∧
      h.field "dataAvailable" = some (.bool true)) ∧
    (∃ a, getAll (.parses (.obj [])) = .ok a ∧ a.status = 200 ∧
      a.field "success" = some (.bool true)) ∧
    (∀ rt : Runtime, getStats rt (.parses (.obj [])) = .error .typeError) :=
  ⟨rfl, ⟨_, rfl, rfl, rfl⟩, ⟨_, rfl, rfl, rfl⟩, fun _ => ⟨_, rfl, rfl, rfl⟩, ⟨_, rfl, rfl⟩,
    ⟨_, rfl, rfl, rfl⟩, fun _ => rfl⟩

/-- C10, as amended: for every snapshot whose root is a mapping and whose
`products` field is a sequence of mappings (so for every valid snapshot,
whatever its `count` and `lastUpdate`), the filtering in the Amazon and
Product Hunt handlers completes without raising and each of the two handlers
calls `res.json` with a `success: true` body; the aggregation in `/api/stats`
completes without raising, and the handler calls `res.json` with a
`success: true` body, when moreover no product's `platform` is a sequence or
a mapping with an own `toString` field. -/
theorem C10_query_layer_does_not_raise (rt : Runtime) (d : Backing) (root : Json)
    (xs : List Json)
    (hload : readProductsFromFile d = .ok root)
    (hp : root.get "products" = some (.arr xs))
    (hm : ∀ x ∈ xs, isObj x = true) :
    (∃ r : Response, getAmazon d = .ok r ∧ r.status = 200 ∧
      r.field "success" = some (.bool true)) ∧
    (∃ r : Response, getProductHunt d = .ok r ∧ r.status = 200 ∧
      r.field "success" = some (.bool true)) ∧
    ((∀ x ∈ xs, keyable (x.get "platform") = true) →
      (∃ ps, tally rt [] xs = .ok ps) ∧
      ∃ r : Response, getStats rt d = .ok r ∧ r.status = 200 ∧
        r.field "success" = some (.bool true)) := by
  have hx : ∀ x ∈ xs, isNull x = false := by
    intro x hxm
    have := hm x hxm
    cases x <;> first | rfl | simp [isObj] at this
  refine ⟨⟨_, getByPlatform_of_items "Amazon" d root xs hload hp hx, rfl, rfl⟩,
    ⟨_, getByPlatform_of_items "Product Hunt" d root xs hload hp hx, rfl, rfl⟩, ?_⟩
  intro hkey
  have hk : ∀ x ∈ xs, ∃ k, platformKey rt x = .ok k :=
    fun x hxm => platformKey_of_keyable rt x (hm x hxm) (hkey x hxm)
  obtain ⟨ps, hps⟩ := getStats_of_keyable rt d root xs hload hp hk
  exact ⟨tally_ok rt xs [] hk, _, hps, rfl, rfl⟩

/-- C10, witness: Scenario A, a valid snapshot whose products carry string
platforms. -/
theorem C10_query_layer_does_not_raise_witness :
    readProductsFromFile (.parses scenarioA) = .ok scenarioA ∧
    ∀ rt : Runtime,
    (∃ r : Response, getAmazon (.parses scenarioA) = .ok r ∧ r.status = 200 ∧
      r.field "success" = some (.bool true)) ∧
    (∃ r : Response, getProductHunt (.parses scenarioA) = .ok r ∧ r.status = 200 ∧
      r.field "success" = some (.bool true)) ∧
    ((∀ x ∈ [Json.obj [("platform", .str "Amazon"), ("name", .str "X")],
        .obj [("platform", .str "Product Hunt"), ("name", .str "Y")]],
        keyable (x.get "platform") = true) →
      (∃ ps, tally rt [] [Json.obj [("platform", .str "Amazon"), ("name", .str "X")],
        .obj [("platform", .str "Product Hunt"), ("name", .str "Y")]] = .ok ps) ∧
      ∃ r : Response, getStats rt (.parses scenarioA) = .ok r ∧ r.status = 200 ∧
        r.field "success" = some (.bool true)) :=
  ⟨rfl, fun rt => C10_query_layer_does_not_raise rt (.parses scenarioA) scenarioA
    [.obj [("platform", .str "Amazon"), ("name", .str "X")],
      .obj [("platform", .str "Product Hunt"), ("name", .str "Y")]]
    rfl rfl
    (by
      intro x hx
      simp only [List.mem_cons, List.mem_singleton, List.not_mem_nil, or_false] at hx
      rcases hx with rfl | rfl <;> rfl)⟩

/-- C10, counterexample: on
`{"count":1,"lastUpdate":"T","products":[{"platform":{"toString":1}}]}`, a
valid snapshot whose only product is a mapping, the aggregation of
`/api/stats` throws a `TypeError`: the key of `platforms[product.platform]` is
the conversion of a mapping whose own `toString` field is not callable. -/
theorem C10_stats_raises_on_unconvertible_platform :
    readProductsFromFile (.parses docToStringPlatform) = .ok docToStringPlatform ∧
    isObj docToStringPlatform = true ∧
    docToStringPlatform.get "products"
      = some (.arr [.obj [("platform", .obj [("toString", .num 1)])]]) ∧
    isObj (.obj [("platform", .obj [("toString", .num 1)])]) = true ∧
    isNum (docToStringPlatform.get "count") = true ∧
    isStr (docToStringPlatform.get "lastUpdate") = true ∧
    (∀ rt : Runtime, getStats rt (.parses docToStringPlatform) = .error .typeError) :=
  ⟨rfl, rfl, rfl, rfl, rfl, rfl, fun _ => rfl⟩

end TrendTracker
